import Mathlib

/-!
Shallow embedding of the Hit4Power player-development web application
(`app/main.py`): the relational data model (instructors, players, metrics,
instructor favorites), the signed session state, and the request handlers
for login, logout, roster grouping, favorite toggling, the player dashboard
and player creation.  Machine floats of the source are modelled as
rationals; wall-clock time is passed in as an explicit Unix-seconds
argument; the SQL tables are Lean lists (the favorites table, which
carries a `(instructor_id, player_id)` uniqueness constraint and is only
ever consulted for membership, is a `Finset` of pairs).
-/

/-- `AGE_GROUPS` from `main.py`: the five allow-listed age groups. -/
def AGE_GROUPS : List String := ["7-9", "10-12", "13-15", "16-18", "18+"]

/-- Python `str.strip()`: remove leading and trailing whitespace. -/
def pyStrip (s : String) : String :=
  ⟨((s.data.dropWhile Char.isWhitespace).reverse.dropWhile Char.isWhitespace).reverse⟩

/-- A row of the `instructors` table. -/
structure Instructor where
  id : Int
  name : String
  login_code : String
deriving DecidableEq

/-- A row of the `players` table.  `created_at` is Unix seconds. -/
structure Player where
  id : Int
  first_name : String
  last_name : String
  age_group : String
  email : Option String
  phone : Option String
  login_code : Option String
  image_url : Option String
  created_at : Nat
deriving DecidableEq

/-- A row of the `metrics` table.  The three nullable float columns are
modelled as optional rationals; `taken_at` is Unix seconds. -/
structure Metric where
  id : Int
  player_id : Int
  taken_at : Nat
  exit_velocity : Option ℚ
  spin_rate : Option ℚ
  launch_angle : Option ℚ
deriving DecidableEq

/-- The database state.  The `instructor_favorites` table has the uniqueness
constraint `uq_instructor_player` on `(instructor_id, player_id)`, so its
contents are exactly a finite set of pairs. -/
structure DB where
  instructors : List Instructor
  players : List Player
  metrics : List Metric
  favorites : Finset (Int × Int)
deriving DecidableEq

/-- The signed client-side session: the dict `request.session`, whose keys
used by the handlers are `instructor_id`, `player_id` and `create_success`. -/
structure SessionData where
  instructor_id : Option Int := none
  player_id : Option Int := none
  create_success : Option String := none
deriving DecidableEq

/-- One record of the serialized `my_clients` list returned by the
favorite-toggle endpoint. -/
structure ClientRec where
  id : Int
  name : String
  age_group : String
deriving DecidableEq

/-- The responses the modelled handlers can produce: redirects, rendered
login forms (with an optional error message), the rendered roster and
dashboard pages, and the two JSON shapes of the toggle endpoint. -/
inductive Resp where
  | redirect (location : String) (status : Nat)
  | instructorLoginPage (error : Option String)
  | playerLoginPage (error : Option String)
  | playersPage (groups : List (String × List Player)) (fav_ids : Finset Int)
      (my_clients : List Player)
  | dashboardPage (player : Player) (labels : List String) (ev_vals : List ℚ)
      (latest : Option Metric)
  | jsonError (ok : Bool) (error : String) (status : Nat)
  | toggleJson (ok : Bool) (favorited : Bool) (my_clients : List ClientRec)
deriving DecidableEq

/-! ### Auth handlers -/

/-- `POST /instructor` (`instructor_do_login`): strip the submitted code,
look it up in `instructors.login_code`; on a match store the id in the
session and redirect to the roster, otherwise re-render the form with an
error and leave the session untouched. -/
def instructor_do_login (code : String) (session : SessionData) (db : DB) :
    Resp × SessionData :=
  match db.instructors.find? (fun c => c.login_code == pyStrip code) with
  | none => (Resp.instructorLoginPage (some "Invalid login code."), session)
  | some coach =>
      (Resp.redirect "/instructor/clients" 303,
       { session with instructor_id := some coach.id })

/-- `GET /logout`: `request.session.clear()` then redirect home. -/
def logout (session : SessionData) : Resp × SessionData :=
  (Resp.redirect "/" 303, {})

/-- `POST /player` (`player_do_login`): like instructor login but against
`players.login_code` (a nullable column, so the match is against
`some code.trim`). -/
def player_do_login (code : String) (session : SessionData) (db : DB) :
    Resp × SessionData :=
  match db.players.find? (fun p => p.login_code == some (pyStrip code)) with
  | none => (Resp.playerLoginPage (some "Invalid login code."), session)
  | some p =>
      (Resp.redirect "/player/dashboard" 303,
       { session with player_id := some p.id })

/-! ### Roster grouping -/

/-- The bucket a player lands in: `grouped.get(p.age_group, grouped["18+"])`
appends to the `age_group` bucket when it is one of the five keys and to
the `"18+"` bucket otherwise. -/
def bucketKey (age_group : String) : String :=
  if AGE_GROUPS.contains age_group then age_group else "18+"

/-- `group_players_by_age`: start from the five empty buckets in
`AGE_GROUPS` order and append each player to its bucket. -/
def group_players_by_age (players : List Player) : List (String × List Player) :=
  players.foldl
    (fun grouped p =>
      grouped.map (fun e =>
        if e.1 = bucketKey p.age_group then (e.1, e.2 ++ [p]) else e))
    (AGE_GROUPS.map (fun g => (g, ([] : List Player))))

/-- The SQL ordering `ORDER BY last_name, first_name` on players. -/
def playerOrd (a b : Player) : Bool :=
  if a.last_name = b.last_name then a.first_name ≤ b.first_name
  else a.last_name ≤ b.last_name

/-- `get_favorite_ids`: the ids of the players the instructor favorited. -/
def get_favorite_ids (db : DB) (instructor_id : Int) : Finset Int :=
  (db.favorites.filter (fun r => r.1 = instructor_id)).image Prod.snd

/-- The `my` query of `toggle_favorite`: players joined through the
favorites rows of this instructor, ordered by `(last_name, first_name)`,
serialized as `{id, name, age_group}` with `f"{fn} {ln}".strip()`. -/
def my_clients_query (db : DB) (inst_id : Int) : List ClientRec :=
  ((db.players.filter (fun p => (inst_id, p.id) ∈ db.favorites)).mergeSort
      playerOrd).map
    (fun p =>
      { id := p.id, name := pyStrip (p.first_name ++ " " ++ p.last_name),
        age_group := p.age_group })

/-- `POST /instructor/favorite/{player_id}` (`toggle_favorite`).  The
session guard is Python truthiness on `session.get("instructor_id")`:
an absent key or a stored 0 yields the 401 JSON error.  Otherwise the
`(inst_id, player_id)` favorite row is deleted when present (response
`favorited = False`) or inserted when absent (`favorited = True`), and the
updated `my_clients` list is returned with `ok = True`. -/
def toggle_favorite (player_id : Int) (session : SessionData) (db : DB) :
    Resp × DB :=
  match session.instructor_id with
  | none => (Resp.jsonError false "not_logged_in" 401, db)
  | some inst_id =>
    if inst_id = 0 then (Resp.jsonError false "not_logged_in" 401, db)
    else if (inst_id, player_id) ∈ db.favorites then
      let db' : DB := { db with favorites := db.favorites.erase (inst_id, player_id) }
      (Resp.toggleJson true false (my_clients_query db' inst_id), db')
    else
      let db' : DB := { db with favorites := insert (inst_id, player_id) db.favorites }
      (Resp.toggleJson true true (my_clients_query db' inst_id), db')

/-- `GET /instructor/clients` (`instructor_clients`): requires a truthy
instructor session, else redirects to the login form. -/
def instructor_clients (session : SessionData) (db : DB) : Resp :=
  match session.instructor_id with
  | none => Resp.redirect "/instructor" 303
  | some inst_id =>
    if inst_id = 0 then Resp.redirect "/instructor" 303
    else
      let players := db.players.mergeSort playerOrd
      Resp.playersPage (group_players_by_age players) (get_favorite_ids db inst_id)
        ((db.players.filter (fun p => (inst_id, p.id) ∈ db.favorites)).mergeSort
          playerOrd)

/-! ### Player dashboard -/

/-- Gregorian date (year, month, day) of a day count since 1970-01-01
(the standard civil-from-days computation), used to model
`strftime("%b %d")` on a UTC timestamp. -/
def civilFromDays (z0 : Int) : Int × Nat × Nat :=
  let z := z0 + 719468
  let era := (if 0 ≤ z then z else z - 146096) / 146097
  let doe := (z - era * 146097).toNat
  let yoe := (doe - doe / 1460 + doe / 36524 - doe / 146096) / 365
  let y := (yoe : Int) + era * 400
  let doy := doe - (365 * yoe + yoe / 4 - yoe / 100)
  let mp := (5 * doy + 2) / 153
  let d := doy - (153 * mp + 2) / 5 + 1
  let m := if mp < 10 then mp + 3 else mp - 9
  (if m ≤ 2 then y + 1 else y, m, d)

/-- `%b`: abbreviated month name. -/
def monthAbbrev : Nat → String
  | 1 => "Jan" | 2 => "Feb" | 3 => "Mar" | 4 => "Apr" | 5 => "May" | 6 => "Jun"
  | 7 => "Jul" | 8 => "Aug" | 9 => "Sep" | 10 => "Oct" | 11 => "Nov" | _ => "Dec"

/-- `%d`: zero-padded day of month. -/
def twoDigit (n : Nat) : String :=
  if n < 10 then "0" ++ toString n else toString n

/-- `m.taken_at.strftime("%b %d")` on a Unix-seconds timestamp. -/
def strftimeBD (taken_at : Nat) : String :=
  let c := civilFromDays ((taken_at : Int) / 86400)
  monthAbbrev c.2.1 ++ " " ++ twoDigit c.2.2

/-- Python `round` to an integer: round half to even (floats are modelled
as rationals). -/
def pyRound (q : ℚ) : ℤ :=
  if q - ⌊q⌋ = 1 / 2 then (if ⌊q⌋ % 2 = 0 then ⌊q⌋ else ⌊q⌋ + 1)
  else round q

/-- Python `round(x, 1)`: round to one decimal place. -/
def round1 (q : ℚ) : ℚ := (pyRound (q * 10) : ℚ) / 10

/-- Python `(m.exit_velocity or 0.0)`: `None` becomes `0.0` (the only
other falsy float is `0.0` itself, which `or` also sends to `0.0`). -/
def orZero (v : Option ℚ) : ℚ := v.getD 0

/-- `ORDER BY taken_at DESC` on metrics. -/
def metricDesc (a b : Metric) : Bool := b.taken_at ≤ a.taken_at

/-- The `pts` list of `player_dashboard`: the player's metrics ordered
newest-first, limited to 20, then reversed so the oldest of the window
comes first. -/
def dashboardPts (db : DB) (pid : Int) : List Metric :=
  (((db.metrics.filter (fun m => m.player_id == pid)).mergeSort
      metricDesc).take 20).reverse

/-- `GET /player/dashboard` (`player_dashboard`): requires a truthy player
session and an existing player row, else redirects to player login;
renders date labels, exit velocities (missing treated as 0.0, rounded to
one decimal) and the latest metric (`pts[-1] if pts else None`). -/
def player_dashboard (session : SessionData) (db : DB) : Resp :=
  match session.player_id with
  | none => Resp.redirect "/player" 303
  | some player_id =>
    if player_id = 0 then Resp.redirect "/player" 303
    else
      match db.players.find? (fun p => p.id == player_id) with
      | none => Resp.redirect "/player" 303
      | some player =>
        let pts := dashboardPts db player.id
        let labels := pts.map (fun m => strftimeBD m.taken_at)
        let ev_vals := pts.map (fun m => round1 (orZero m.exit_velocity))
        let latest := pts.getLast?
        Resp.dashboardPage player labels ev_vals latest

/-! ### Player creation -/

/-- `str(int(datetime.utcnow().timestamp()))[-6:]`: the last six digits of
the decimal representation of the Unix timestamp in seconds. -/
def lastSixDigits (now : Nat) : String := (toString now).takeRight 6

/-- Autoincrement primary key for a new `players` row. -/
def nextPlayerId (db : DB) : Int :=
  (db.players.foldl (fun acc p => max acc p.id) 0) + 1

/-- `POST /instructor/create-player` (`create_player`): requires a truthy
instructor session, else redirects to instructor login.  An age group
outside the allow-list falls back to `"13-15"`; first and last name are
stripped, email and phone stored as submitted; an image filename, when
present and nonempty, is stored under `/static/uploads/` prefixed with the
timestamp; the login code is minted from the timestamp; a success message
holding the plaintext code is stashed in the session and the instructor is
redirected to the roster. -/
def create_player (first_name last_name age_group : String)
    (email phone : Option String) (image_filename : Option String)
    (now : Nat) (session : SessionData) (db : DB) :
    Resp × SessionData × DB :=
  match session.instructor_id with
  | none => (Resp.redirect "/instructor" 303, session, db)
  | some inst_id =>
    if inst_id = 0 then (Resp.redirect "/instructor" 303, session, db)
    else
      let age_group' := if AGE_GROUPS.contains age_group then age_group else "13-15"
      let image_url : Option String :=
        match image_filename with
        | some fn =>
            if fn ≠ "" then some ("/static/uploads/" ++ toString now ++ "_" ++ fn)
            else none
        | none => none
      let code := lastSixDigits now
      let p : Player :=
        { id := nextPlayerId db,
          first_name := pyStrip first_name,
          last_name := pyStrip last_name,
          age_group := age_group',
          email := email,
          phone := phone,
          login_code := some code,
          image_url := image_url,
          created_at := now }
      let db' : DB := { db with players := db.players ++ [p] }
      let session' : SessionData :=
        { session with create_success := some ("Player created. Login code: " ++ code) }
      (Resp.redirect "/instructor/clients" 303, session', db')

/-! ### The session as a state machine over login/logout operations -/

/-- An authentication operation: one of the three session-mutating
endpoints. -/
inductive AuthOp where
  | instrLogin (code : String)
  | playerLogin (code : String)
  | logoutOp
deriving DecidableEq

/-- Whether an operation is a player login. -/
def AuthOp.isPlayerLoginOp : AuthOp → Bool
  | .playerLogin _ => true
  | _ => false

/-- Whether an operation is an instructor login. -/
def AuthOp.isInstrLoginOp : AuthOp → Bool
  | .instrLogin _ => true
  | _ => false

/-- The session produced by one operation, as computed by the handlers. -/
def authStep (db : DB) (s : SessionData) : AuthOp → SessionData
  | .instrLogin code => (instructor_do_login code s db).2
  | .playerLogin code => (player_do_login code s db).2
  | .logoutOp => (logout s).2

/-- The session reached from `s` by a sequence of operations. -/
def runAuth (db : DB) (s : SessionData) (ops : List AuthOp) : SessionData :=
  ops.foldl (authStep db) s

/-! ### Concrete fixtures used by the witness theorems -/

/-- A demo instructor row. -/
def coach1 : Instructor := { id := 1, name := "Coach", login_code := "999999" }

/-- A demo player row with a login code. -/
def janeDoe : Player :=
  { id := 2, first_name := "Jane", last_name := "Doe", age_group := "10-12",
    email := none, phone := none, login_code := some "222222",
    image_url := none, created_at := 0 }

/-- A demo player row whose age group is not in the allow-list. -/
def samLee : Player :=
  { id := 3, first_name := "Sam", last_name := "Lee", age_group := "basketball",
    email := none, phone := none, login_code := none,
    image_url := none, created_at := 0 }

/-- A metric with an exit velocity. -/
def metricA : Metric :=
  { id := 1, player_id := 2, taken_at := 1700000000,
    exit_velocity := some (755 / 10), spin_rate := none, launch_angle := none }

/-- A newer metric with a missing exit velocity. -/
def metricB : Metric :=
  { id := 2, player_id := 2, taken_at := 1700086400,
    exit_velocity := none, spin_rate := none, launch_angle := none }

/-- A demo database. -/
def dbDemo : DB :=
  { instructors := [coach1], players := [janeDoe], metrics := [metricA, metricB],
    favorites := ∅ }

/-- A session logged in as the demo instructor. -/
def sessInstr : SessionData := { instructor_id := some 1 }

/-- A session logged in as the demo player. -/
def sessPlayer : SessionData := { player_id := some 2 }

/-! ### Helper lemmas -/

/-- `group_players_by_age` computes, bucket by bucket, the players whose
`bucketKey` is that bucket's key, in input order. -/
theorem group_players_by_age_eq (players : List Player) :
    group_players_by_age players =
      AGE_GROUPS.map (fun g => (g, players.filter (fun p => bucketKey p.age_group = g))) := by
  unfold group_players_by_age
  have step : ∀ (l : List Player) (init : List (String × List Player)),
      l.foldl
        (fun grouped p =>
          grouped.map (fun e =>
            if e.1 = bucketKey p.age_group then (e.1, e.2 ++ [p]) else e))
        init
      = init.map (fun e => (e.1, e.2 ++ l.filter (fun p => bucketKey p.age_group = e.1))) := by
    intro l
    induction l with
    | nil => intro init; simp
    | cons p l ih =>
        intro init
        rw [List.foldl_cons, ih, List.map_map]
        apply List.map_congr_left
        intro e _
        by_cases hc : e.1 = bucketKey p.age_group
        · simp [Function.comp, hc, List.filter_cons]
        · simp [Function.comp, hc, List.filter_cons, Ne.symm hc]
  rw [step, List.map_map]
  simp [Function.comp]

/-- Filtering a duplicate-free list for one of its members yields exactly
that member. -/
theorem filter_eq_singleton_of_nodup {α : Type} [DecidableEq α] :
    ∀ (l : List α), l.Nodup → ∀ a ∈ l, l.filter (fun x => a = x) = [a] := by
  intro l
  induction l with
  | nil => intro _ a ha; simp at ha
  | cons b t ih =>
      intro hl a ha
      rw [List.filter_cons]
      rcases List.mem_cons.mp ha with h | h
      · subst h
        have hnot : a ∉ t := (List.nodup_cons.mp hl).1
        have : t.filter (fun x => a = x) = [] := by
          rw [List.filter_eq_nil_iff]
          intro x hx
          simp only [decide_eq_true_eq]
          intro hax
          exact hnot (hax ▸ hx)
        simp [this]
      · have hne : a ≠ b := by
          rintro rfl
          exact (List.nodup_cons.mp hl).1 h
        have := ih (List.nodup_cons.mp hl).2 a h
        simp [hne, this]

/-- Every bucket key is one of the five allow-listed groups. -/
theorem bucketKey_mem (ag : String) : bucketKey ag ∈ AGE_GROUPS := by
  unfold bucketKey
  by_cases h : AGE_GROUPS.contains ag
  · rw [if_pos h]
    exact List.elem_iff.mp h
  · rw [if_neg h]
    decide

/-- `metricDesc` is transitive. -/
theorem metricDesc_trans :
    ∀ a b c : Metric, metricDesc a b → metricDesc b c → metricDesc a c := by
  intro a b c hab hbc
  simp only [metricDesc, decide_eq_true_eq] at *
  omega

/-- `metricDesc` is total. -/
theorem metricDesc_total : ∀ a b : Metric, metricDesc a b || metricDesc b a := by
  intro a b
  simp only [metricDesc, Bool.or_eq_true, decide_eq_true_eq]
  omega

/-- The dashboard series keeps `min 20 ⬝` of the player's metrics. -/
theorem dashboardPts_length (db : DB) (pid : Int) :
    (dashboardPts db pid).length
      = min 20 (db.metrics.filter (fun m => m.player_id == pid)).length := by
  simp [dashboardPts]

/-- The dashboard series is chronologically ascending. -/
theorem dashboardPts_sorted (db : DB) (pid : Int) :
    (dashboardPts db pid).Pairwise (fun a b => a.taken_at ≤ b.taken_at) := by
  have hs : ((db.metrics.filter (fun m => m.player_id == pid)).mergeSort
        metricDesc).Pairwise (fun a b => metricDesc a b) :=
    List.sorted_mergeSort metricDesc_trans metricDesc_total _
  have ht : (((db.metrics.filter (fun m => m.player_id == pid)).mergeSort
        metricDesc).take 20).Pairwise (fun a b => metricDesc a b) :=
    List.Pairwise.sublist (List.take_sublist _ _) hs
  rw [dashboardPts, List.pairwise_reverse]
  exact ht.imp (by intro a b h; simpa [metricDesc] using h)

/-- Every metric of the player left out of the dashboard window is no newer
than every metric kept. -/
theorem dashboardPts_recent (db : DB) (pid : Int) :
    ∀ b ∈ db.metrics.filter (fun m => m.player_id == pid),
      b ∉ dashboardPts db pid →
      ∀ a ∈ dashboardPts db pid, b.taken_at ≤ a.taken_at := by
  intro b hb hbn a ha
  set l := (db.metrics.filter (fun m => m.player_id == pid)).mergeSort metricDesc with hl
  have hsplit : l.take 20 ++ l.drop 20 = l := List.take_append_drop 20 l
  have hs : l.Pairwise (fun a b => metricDesc a b) :=
    List.sorted_mergeSort metricDesc_trans metricDesc_total _
  have hsp : (l.take 20 ++ l.drop 20).Pairwise (fun a b => metricDesc a b) := by
    rw [hsplit]; exact hs
  have hcross := (List.pairwise_append.mp hsp).2.2
  have hbl : b ∈ l := by rw [hl, List.mem_mergeSort]; exact hb
  have hbd : b ∈ l.drop 20 := by
    rcases List.mem_append.mp (hsplit ▸ hbl) with h | h
    · exfalso; apply hbn; rw [dashboardPts, List.mem_reverse]; exact h
    · exact h
  have hat : a ∈ l.take 20 := by
    rw [dashboardPts, List.mem_reverse] at ha; exact ha
  have := hcross a hat b hbd
  simpa [metricDesc] using this

/-- Every metric in the dashboard series belongs to the player. -/
theorem dashboardPts_mem (db : DB) (pid : Int) :
    ∀ m ∈ dashboardPts db pid, m ∈ db.metrics ∧ m.player_id = pid := by
  intro m hm
  rw [dashboardPts, List.mem_reverse] at hm
  have h1 := List.mem_mergeSort.mp (List.mem_of_mem_take hm)
  have h2 := List.mem_filter.mp h1
  refine ⟨h2.1, ?_⟩
  simpa using h2.2

/-! ### Claim theorems -/

/-- C4: roster grouping is total — every player in the input list appears
in exactly one of the five fixed buckets of `group_players_by_age` (namely
the bucket of its `bucketKey`), and a player whose `age_group` is not one
of the five bucket keys lands in the `"18+"` bucket. -/
theorem roster_grouping_total (players : List Player) (p : Player)
    (hp : p ∈ players) :
    ((group_players_by_age players).filter (fun e => p ∈ e.2)).map Prod.fst
      = [bucketKey p.age_group] ∧
    bucketKey p.age_group ∈ AGE_GROUPS ∧
    (p.age_group ∉ AGE_GROUPS → bucketKey p.age_group = "18+") := by
  refine ⟨?_, bucketKey_mem p.age_group, ?_⟩
  · rw [group_players_by_age_eq, List.filter_map, List.map_map]
    have h1 : (AGE_GROUPS.filter
        ((fun e : String × List Player => decide (p ∈ e.2)) ∘
          (fun g => (g, players.filter (fun q => bucketKey q.age_group = g)))))
        = AGE_GROUPS.filter (fun g => bucketKey p.age_group = g) := by
      apply List.filter_congr
      intro g _
      simp only [Function.comp, List.mem_filter, decide_eq_true_eq]
      by_cases hk : bucketKey p.age_group = g
      · simp [hk, hp]
      · simp [hk]
    rw [h1, filter_eq_singleton_of_nodup AGE_GROUPS (by decide) _
      (bucketKey_mem p.age_group)]
    simp
  · intro hn
    unfold bucketKey
    rw [if_neg]
    intro hc
    exact hn (List.elem_iff.mp hc)

/-- C4 witness: the unrecognized age group "basketball" lands exactly in
the `"18+"` bucket. -/
theorem roster_grouping_total_witness :
    samLee ∈ [samLee] ∧
    (((group_players_by_age [samLee]).filter (fun e => samLee ∈ e.2)).map Prod.fst
        = [bucketKey samLee.age_group] ∧
      bucketKey samLee.age_group ∈ AGE_GROUPS ∧
      (samLee.age_group ∉ AGE_GROUPS → bucketKey samLee.age_group = "18+")) :=
  ⟨List.mem_singleton.mpr rfl,
   roster_grouping_total [samLee] samLee (List.mem_singleton.mpr rfl)⟩

/-- C3: instructor login strips the submitted code and requires an exact
match against a stored `login_code`; on a match the session gains
`instructor_id` equal to the matched row's id and the response is a 303
redirect to the roster; on no match the session is unchanged and the login
form re-renders with the generic error message. -/
theorem instructor_login_spec (code : String) (s : SessionData) (db : DB) :
    ((∃ c ∈ db.instructors, c.login_code = pyStrip code) →
      ∃ c ∈ db.instructors, c.login_code = pyStrip code ∧
        instructor_do_login code s db =
          (Resp.redirect "/instructor/clients" 303,
           { s with instructor_id := some c.id })) ∧
    ((∀ c ∈ db.instructors, c.login_code ≠ pyStrip code) →
      instructor_do_login code s db =
        (Resp.instructorLoginPage (some "Invalid login code."), s)) := by
  constructor
  · rintro ⟨c, hc, he⟩
    cases hfind : db.instructors.find? (fun c => c.login_code == pyStrip code) with
    | none =>
        exfalso
        have := List.find?_eq_none.mp hfind c hc
        simp only [beq_iff_eq] at this
        exact this he
    | some coach =>
        refine ⟨coach, List.mem_of_find?_eq_some hfind, ?_, ?_⟩
        · have := List.find?_some hfind
          simpa using this
        · simp [instructor_do_login, hfind]
  · intro hall
    cases hfind : db.instructors.find? (fun c => c.login_code == pyStrip code) with
    | none => simp [instructor_do_login, hfind]
    | some coach =>
        exfalso
        have h1 := List.find?_some hfind
        have h2 := List.mem_of_find?_eq_some hfind
        simp only [beq_iff_eq] at h1
        exact hall coach h2 h1

/-- C3 witness: logging in with the demo code, surrounded by whitespace,
redirects to the roster and stores the matched instructor id. -/
theorem instructor_login_spec_witness :
    (∃ c ∈ dbDemo.instructors, c.login_code = pyStrip " 999999 ") ∧
    (∃ c ∈ dbDemo.instructors, c.login_code = pyStrip " 999999 " ∧
      instructor_do_login " 999999 " {} dbDemo =
        (Resp.redirect "/instructor/clients" 303,
         { ({} : SessionData) with instructor_id := some c.id })) :=
  ⟨⟨coach1, by simp [dbDemo], by decide⟩,
   (instructor_login_spec " 999999 " {} dbDemo).1 ⟨coach1, by simp [dbDemo], by decide⟩⟩

/-- C6: a favorite-toggle request without an `instructor_id` in the
session yields the structured 401 JSON failure and leaves the database —
in particular the favorites table — completely unchanged. -/
theorem toggle_unauthorized (pid : Int) (s : SessionData) (db : DB)
    (hs : s.instructor_id = none) :
    toggle_favorite pid s db = (Resp.jsonError false "not_logged_in" 401, db) := by
  simp [toggle_favorite, hs]

/-- C6 witness: toggling player 2 with an anonymous session 401s and
leaves the demo database untouched. -/
theorem toggle_unauthorized_witness :
    (({} : SessionData).instructor_id = none) ∧
    toggle_favorite 2 {} dbDemo = (Resp.jsonError false "not_logged_in" 401, dbDemo) :=
  ⟨rfl, toggle_unauthorized 2 {} dbDemo rfl⟩

/-- C1: for a logged-in instructor the favorite toggle is an involution on
the favorites table — two toggles of the same pair restore the original
membership, the two `favorited` booleans are negations of each other, one
toggle flips exactly the presence of the toggled pair, and every other
pair's membership is untouched. -/
theorem toggle_involution (pid : Int) (s : SessionData) (db : DB) (i : Int)
    (hs : s.instructor_id = some i) (h0 : i ≠ 0) :
    (toggle_favorite pid s (toggle_favorite pid s db).2).2.favorites = db.favorites ∧
    (∃ b1 b2 mc1 mc2,
        (toggle_favorite pid s db).1 = Resp.toggleJson true b1 mc1 ∧
        (toggle_favorite pid s (toggle_favorite pid s db).2).1
          = Resp.toggleJson true b2 mc2 ∧
        b1 = !b2) ∧
    ((i, pid) ∈ (toggle_favorite pid s db).2.favorites ↔ (i, pid) ∉ db.favorites) ∧
    (∀ q : Int × Int, q ≠ (i, pid) →
        (q ∈ (toggle_favorite pid s db).2.favorites ↔ q ∈ db.favorites)) := by
  by_cases hmem : (i, pid) ∈ db.favorites
  · have h1 : toggle_favorite pid s db =
        (Resp.toggleJson true false
          (my_clients_query { db with favorites := db.favorites.erase (i, pid) } i),
         { db with favorites := db.favorites.erase (i, pid) }) := by
      simp [toggle_favorite, hs, h0, hmem]
    have hne : (i, pid) ∉ db.favorites.erase (i, pid) := Finset.not_mem_erase _ _
    have h2 : toggle_favorite pid s { db with favorites := db.favorites.erase (i, pid) } =
        (Resp.toggleJson true true
          (my_clients_query
            { db with favorites := insert (i, pid) (db.favorites.erase (i, pid)) } i),
         { db with favorites := insert (i, pid) (db.favorites.erase (i, pid)) }) := by
      simp [toggle_favorite, hs, h0, hne]
    rw [h1]
    simp only [h2]
    refine ⟨?_, ⟨false, true, _, _, rfl, rfl, rfl⟩, ?_, ?_⟩
    · simp [Finset.insert_erase hmem]
    · simp [hne, hmem]
    · intro q hq
      rw [Finset.mem_erase]
      simp [hq]
  · have h1 : toggle_favorite pid s db =
        (Resp.toggleJson true true
          (my_clients_query { db with favorites := insert (i, pid) db.favorites } i),
         { db with favorites := insert (i, pid) db.favorites }) := by
      simp [toggle_favorite, hs, h0, hmem]
    have hmem2 : (i, pid) ∈ insert (i, pid) db.favorites := Finset.mem_insert_self _ _
    have h2 : toggle_favorite pid s { db with favorites := insert (i, pid) db.favorites } =
        (Resp.toggleJson true false
          (my_clients_query
            { db with favorites := (insert (i, pid) db.favorites).erase (i, pid) } i),
         { db with favorites := (insert (i, pid) db.favorites).erase (i, pid) }) := by
      simp [toggle_favorite, hs, h0, hmem2]
    rw [h1]
    simp only [h2]
    refine ⟨?_, ⟨true, false, _, _, rfl, rfl, rfl⟩, ?_, ?_⟩
    · simp [Finset.erase_insert hmem]
    · simp [hmem2, hmem]
    · intro q hq
      rw [Finset.mem_insert]
      simp [hq]

/-- C1 witness: double-toggling player 2 as the demo instructor restores
the (empty) favorites table, with alternating `favorited` flags. -/
theorem toggle_involution_witness :
    sessInstr.instructor_id = some 1 ∧ (1 : Int) ≠ 0 ∧
    ((toggle_favorite 2 sessInstr (toggle_favorite 2 sessInstr dbDemo).2).2.favorites
        = dbDemo.favorites ∧
     (∃ b1 b2 mc1 mc2,
        (toggle_favorite 2 sessInstr dbDemo).1 = Resp.toggleJson true b1 mc1 ∧
        (toggle_favorite 2 sessInstr (toggle_favorite 2 sessInstr dbDemo).2).1
          = Resp.toggleJson true b2 mc2 ∧
        b1 = !b2) ∧
     ((1, 2) ∈ (toggle_favorite 2 sessInstr dbDemo).2.favorites ↔
        (1, 2) ∉ dbDemo.favorites) ∧
     (∀ q : Int × Int, q ≠ (1, 2) →
        (q ∈ (toggle_favorite 2 sessInstr dbDemo).2.favorites ↔ q ∈ dbDemo.favorites))) :=
  ⟨rfl, by decide, toggle_involution 2 sessInstr dbDemo 1 rfl (by decide)⟩

/-- C10: for a logged-in instructor the toggle consults no player row: it
returns `ok = true` with the new flag, flips the pair's membership for any
integer `player_id`, and its effect on the favorites table is identical no
matter what the players table holds — so a favorite row referencing a
nonexistent player can be created. -/
theorem toggle_no_existence_check (pid : Int) (s : SessionData) (db : DB) (i : Int)
    (hs : s.instructor_id = some i) (h0 : i ≠ 0) :
    (∃ favorited mc, (toggle_favorite pid s db).1 = Resp.toggleJson true favorited mc) ∧
    ((i, pid) ∈ (toggle_favorite pid s db).2.favorites ↔ (i, pid) ∉ db.favorites) ∧
    (∀ players' : List Player,
        (toggle_favorite pid s { db with players := players' }).2.favorites
          = (toggle_favorite pid s db).2.favorites) := by
  refine ⟨?_, ?_, ?_⟩
  · by_cases hmem : (i, pid) ∈ db.favorites
    · have h1 : (toggle_favorite pid s db).1 =
          Resp.toggleJson true false
            (my_clients_query { db with favorites := db.favorites.erase (i, pid) } i) := by
        simp [toggle_favorite, hs, h0, hmem]
      exact ⟨false, _, h1⟩
    · have h1 : (toggle_favorite pid s db).1 =
          Resp.toggleJson true true
            (my_clients_query { db with favorites := insert (i, pid) db.favorites } i) := by
        simp [toggle_favorite, hs, h0, hmem]
      exact ⟨true, _, h1⟩
  · by_cases hmem : (i, pid) ∈ db.favorites
    · simp [toggle_favorite, hs, h0, hmem, Finset.not_mem_erase]
    · simp [toggle_favorite, hs, h0, hmem]
  · intro players'
    by_cases hmem : (i, pid) ∈ db.favorites
    · simp [toggle_favorite, hs, h0, hmem]
    · simp [toggle_favorite, hs, h0, hmem]

/-- C10 witness: with an empty players table the toggle still inserts the
(1, 7) favorite row and reports `ok = true`. -/
theorem toggle_no_existence_check_witness :
    sessInstr.instructor_id = some 1 ∧ (1 : Int) ≠ 0 ∧
    ((∃ favorited mc,
        (toggle_favorite 7 sessInstr dbDemo).1 = Resp.toggleJson true favorited mc) ∧
     ((1, 7) ∈ (toggle_favorite 7 sessInstr dbDemo).2.favorites ↔
        (1, 7) ∉ dbDemo.favorites) ∧
     (∀ players' : List Player,
        (toggle_favorite 7 sessInstr { dbDemo with players := players' }).2.favorites
          = (toggle_favorite 7 sessInstr dbDemo).2.favorites)) :=
  ⟨rfl, by decide, toggle_no_existence_check 7 sessInstr dbDemo 1 rfl (by decide)⟩

/-- C5: create-player validates the submitted age group against the
five-value allow-list; any other value — "basketball" included — is stored
as `"13-15"`, while an allow-listed value is stored unchanged. -/
theorem create_player_age_fallback (fn ln ag : String)
    (email phone img : Option String) (now : Nat) (s : SessionData) (db : DB)
    (i : Int) (hs : s.instructor_id = some i) (h0 : i ≠ 0) :
    ∃ p : Player,
      (create_player fn ln ag email phone img now s db).2.2.players
        = db.players ++ [p] ∧
      p.age_group = (if AGE_GROUPS.contains ag then ag else "13-15") ∧
      (ag ∉ AGE_GROUPS → p.age_group = "13-15") ∧
      (ag ∈ AGE_GROUPS → p.age_group = ag) := by
  have hmain : (create_player fn ln ag email phone img now s db).2.2.players
      = db.players ++
        [{ id := nextPlayerId db,
           first_name := pyStrip fn,
           last_name := pyStrip ln,
           age_group := if AGE_GROUPS.contains ag then ag else "13-15",
           email := email,
           phone := phone,
           login_code := some (lastSixDigits now),
           image_url :=
             match img with
             | some f => if f ≠ "" then some ("/static/uploads/" ++ toString now ++ "_" ++ f) else none
             | none => none,
           created_at := now }] := by
    simp [create_player, hs, h0]
  refine ⟨_, hmain, rfl, ?_, ?_⟩
  · intro hn
    rw [if_neg]
    intro hc
    exact hn (List.elem_iff.mp hc)
  · intro hy
    rw [if_pos (List.elem_eq_true_of_mem hy)]

/-- C5 witness: creating a player with age group "basketball" stores age
group "13-15". -/
theorem create_player_age_fallback_witness :
    sessInstr.instructor_id = some 1 ∧ (1 : Int) ≠ 0 ∧
    (∃ p : Player,
      (create_player "Jo" "Kim" "basketball" none none none 1700000000 sessInstr dbDemo).2.2.players
        = dbDemo.players ++ [p] ∧
      p.age_group = (if AGE_GROUPS.contains "basketball" then "basketball" else "13-15") ∧
      ("basketball" ∉ AGE_GROUPS → p.age_group = "13-15") ∧
      ("basketball" ∈ AGE_GROUPS → p.age_group = "basketball")) :=
  ⟨rfl, by decide,
   create_player_age_fallback "Jo" "Kim" "basketball" none none none 1700000000
     sessInstr dbDemo 1 rfl (by decide)⟩

/-- C8: the minted login code is the last six digits of the decimal
representation of the Unix timestamp in seconds; the session's success
message contains that plaintext code, and the response is a 303 redirect
to the roster. -/
theorem create_player_login_code (fn ln ag : String)
    (email phone img : Option String) (now : Nat) (s : SessionData) (db : DB)
    (i : Int) (hs : s.instructor_id = some i) (h0 : i ≠ 0) :
    ∃ p : Player,
      (create_player fn ln ag email phone img now s db).2.2.players
        = db.players ++ [p] ∧
      p.login_code = some (lastSixDigits now) ∧
      lastSixDigits now = (toString now).takeRight 6 ∧
      (create_player fn ln ag email phone img now s db).2.1.create_success
        = some ("Player created. Login code: " ++ lastSixDigits now) ∧
      (∃ pre post, "Player created. Login code: " ++ lastSixDigits now
          = pre ++ lastSixDigits now ++ post) ∧
      (create_player fn ln ag email phone img now s db).1
        = Resp.redirect "/instructor/clients" 303 := by
  have hmain : (create_player fn ln ag email phone img now s db).2.2.players
      = db.players ++
        [{ id := nextPlayerId db,
           first_name := pyStrip fn,
           last_name := pyStrip ln,
           age_group := if AGE_GROUPS.contains ag then ag else "13-15",
           email := email,
           phone := phone,
           login_code := some (lastSixDigits now),
           image_url :=
             match img with
             | some f => if f ≠ "" then some ("/static/uploads/" ++ toString now ++ "_" ++ f) else none
             | none => none,
           created_at := now }] := by
    simp [create_player, hs, h0]
  refine ⟨_, hmain, rfl, rfl, ?_, ?_, ?_⟩
  · simp [create_player, hs, h0]
  · exact ⟨"Player created. Login code: ", "", by simp⟩
  · simp [create_player, hs, h0]

/-- C8 witness: at timestamp 1700086455 the minted code is "086455", the
success message carries it, and the response redirects to the roster. -/
theorem create_player_login_code_witness :
    sessInstr.instructor_id = some 1 ∧ (1 : Int) ≠ 0 ∧
    lastSixDigits 1700086455 = "086455" ∧
    (∃ p : Player,
      (create_player "Jo" "Kim" "10-12" none none none 1700086455 sessInstr dbDemo).2.2.players
        = dbDemo.players ++ [p] ∧
      p.login_code = some (lastSixDigits 1700086455) ∧
      lastSixDigits 1700086455 = (toString 1700086455).takeRight 6 ∧
      (create_player "Jo" "Kim" "10-12" none none none 1700086455 sessInstr dbDemo).2.1.create_success
        = some ("Player created. Login code: " ++ lastSixDigits 1700086455) ∧
      (∃ pre post, "Player created. Login code: " ++ lastSixDigits 1700086455
          = pre ++ lastSixDigits 1700086455 ++ post) ∧
      (create_player "Jo" "Kim" "10-12" none none none 1700086455 sessInstr dbDemo).1
        = Resp.redirect "/instructor/clients" 303) :=
  ⟨rfl, by decide, by decide,
   create_player_login_code "Jo" "Kim" "10-12" none none none 1700086455
     sessInstr dbDemo 1 rfl (by decide)⟩

/-- C9: the stored player's first and last name are the submitted values
with surrounding whitespace stripped, while email and phone are stored
verbatim. -/
theorem create_player_names_stripped (fn ln ag : String)
    (email phone img : Option String) (now : Nat) (s : SessionData) (db : DB)
    (i : Int) (hs : s.instructor_id = some i) (h0 : i ≠ 0) :
    ∃ p : Player,
      (create_player fn ln ag email phone img now s db).2.2.players
        = db.players ++ [p] ∧
      p.first_name = pyStrip fn ∧
      p.last_name = pyStrip ln ∧
      p.email = email ∧
      p.phone = phone := by
  have hmain : (create_player fn ln ag email phone img now s db).2.2.players
      = db.players ++
        [{ id := nextPlayerId db,
           first_name := pyStrip fn,
           last_name := pyStrip ln,
           age_group := if AGE_GROUPS.contains ag then ag else "13-15",
           email := email,
           phone := phone,
           login_code := some (lastSixDigits now),
           image_url :=
             match img with
             | some f => if f ≠ "" then some ("/static/uploads/" ++ toString now ++ "_" ++ f) else none
             | none => none,
           created_at := now }] := by
    simp [create_player, hs, h0]
  exact ⟨_, hmain, rfl, rfl, rfl, rfl⟩

/-- C9 witness: names " Jane " / " Doe " are stripped to "Jane" / "Doe",
while the email keeps its surrounding whitespace. -/
theorem create_player_names_stripped_witness :
    sessInstr.instructor_id = some 1 ∧ (1 : Int) ≠ 0 ∧
    pyStrip " Jane " = "Jane" ∧
    (∃ p : Player,
      (create_player " Jane " " Doe " "10-12" (some " a@b.c ") none none 1700000000
          sessInstr dbDemo).2.2.players
        = dbDemo.players ++ [p] ∧
      p.first_name = pyStrip " Jane " ∧
      p.last_name = pyStrip " Doe " ∧
      p.email = some " a@b.c " ∧
      p.phone = none) :=
  ⟨rfl, by decide, by decide,
   create_player_names_stripped " Jane " " Doe " "10-12" (some " a@b.c ") none none
     1700000000 sessInstr dbDemo 1 rfl (by decide)⟩

/-- C2: for a logged-in player with an existing row, the dashboard renders
`labels` and `ev_vals` of equal length `min 20 ⬝number of the player's
metrics⬝`; the series is drawn from the player's own metrics, is
chronologically ascending, omits only metrics no newer than every kept
one (i.e. keeps the 20 most recent), maps each exit velocity — missing
treated as 0 — through one-decimal rounding, and surfaces the last element
of the ascending series as `latest`, absent when there are no metrics. -/
theorem dashboard_series (s : SessionData) (db : DB) (pid : Int) (player : Player)
    (hs : s.player_id = some pid) (h0 : pid ≠ 0)
    (hp : db.players.find? (fun p => p.id == pid) = some player) :
    ∃ labels ev_vals latest,
      player_dashboard s db = Resp.dashboardPage player labels ev_vals latest ∧
      labels = (dashboardPts db player.id).map (fun m => strftimeBD m.taken_at) ∧
      ev_vals = (dashboardPts db player.id).map
        (fun m => round1 (orZero m.exit_velocity)) ∧
      labels.length = ev_vals.length ∧
      labels.length
        = min 20 (db.metrics.filter (fun m => m.player_id == player.id)).length ∧
      (∀ m ∈ dashboardPts db player.id, m ∈ db.metrics ∧ m.player_id = player.id) ∧
      (dashboardPts db player.id).Pairwise (fun a b => a.taken_at ≤ b.taken_at) ∧
      (∀ b ∈ db.metrics.filter (fun m => m.player_id == player.id),
          b ∉ dashboardPts db player.id →
          ∀ a ∈ dashboardPts db player.id, b.taken_at ≤ a.taken_at) ∧
      latest = (dashboardPts db player.id).getLast? ∧
      (db.metrics.filter (fun m => m.player_id == player.id) = [] → latest = none) := by
  have hresp : player_dashboard s db =
      Resp.dashboardPage player
        ((dashboardPts db player.id).map (fun m => strftimeBD m.taken_at))
        ((dashboardPts db player.id).map (fun m => round1 (orZero m.exit_velocity)))
        ((dashboardPts db player.id).getLast?) := by
    simp [player_dashboard, hs, h0, hp]
  refine ⟨_, _, _, hresp, rfl, rfl, by simp, ?_,
    dashboardPts_mem db player.id, dashboardPts_sorted db player.id,
    dashboardPts_recent db player.id, rfl, ?_⟩
  · rw [List.length_map, dashboardPts_length]
  · intro hnil
    have hempty : dashboardPts db player.id = [] := by
      rw [dashboardPts, hnil]
      simp
    rw [hempty]
    rfl

/-- C2 witness: the demo player's dashboard shows both metrics oldest
first, with the missing exit velocity of the newer metric rendered as 0. -/
theorem dashboard_series_witness :
    sessPlayer.player_id = some 2 ∧ (2 : Int) ≠ 0 ∧
    dbDemo.players.find? (fun p => p.id == 2) = some janeDoe ∧
    (∃ labels ev_vals latest,
      player_dashboard sessPlayer dbDemo
        = Resp.dashboardPage janeDoe labels ev_vals latest ∧
      labels = (dashboardPts dbDemo janeDoe.id).map (fun m => strftimeBD m.taken_at) ∧
      ev_vals = (dashboardPts dbDemo janeDoe.id).map
        (fun m => round1 (orZero m.exit_velocity)) ∧
      labels.length = ev_vals.length ∧
      labels.length
        = min 20 (dbDemo.metrics.filter (fun m => m.player_id == janeDoe.id)).length ∧
      (∀ m ∈ dashboardPts dbDemo janeDoe.id, m ∈ dbDemo.metrics ∧ m.player_id = janeDoe.id) ∧
      (dashboardPts dbDemo janeDoe.id).Pairwise (fun a b => a.taken_at ≤ b.taken_at) ∧
      (∀ b ∈ dbDemo.metrics.filter (fun m => m.player_id == janeDoe.id),
          b ∉ dashboardPts dbDemo janeDoe.id →
          ∀ a ∈ dashboardPts dbDemo janeDoe.id, b.taken_at ≤ a.taken_at) ∧
      latest = (dashboardPts dbDemo janeDoe.id).getLast? ∧
      (dbDemo.metrics.filter (fun m => m.player_id == janeDoe.id) = [] → latest = none)) :=
  ⟨rfl, by decide, by decide,
   dashboard_series sessPlayer dbDemo 2 janeDoe rfl (by decide) (by decide)⟩

/-- Instructor login never touches the session's `player_id`. -/
theorem instructor_do_login_player_id (code : String) (s : SessionData) (db : DB) :
    (instructor_do_login code s db).2.player_id = s.player_id := by
  unfold instructor_do_login
  cases db.instructors.find? (fun c => c.login_code == pyStrip code) <;> rfl

/-- Player login never touches the session's `instructor_id`. -/
theorem player_do_login_instructor_id (code : String) (s : SessionData) (db : DB) :
    (player_do_login code s db).2.instructor_id = s.instructor_id := by
  unfold player_do_login
  cases db.players.find? (fun p => p.login_code == some (pyStrip code)) <;> rfl

/-- A run containing no player logins keeps `player_id` unset. -/
theorem runAuth_player_id_none (db : DB) (ops : List AuthOp) :
    ∀ s : SessionData, s.player_id = none →
      (∀ op ∈ ops, op.isPlayerLoginOp = false) →
      (runAuth db s ops).player_id = none := by
  induction ops with
  | nil => intro s hs _; exact hs
  | cons op ops ih =>
      intro s hs hall
      have hstep : runAuth db s (op :: ops) = runAuth db (authStep db s op) ops := rfl
      rw [hstep]
      apply ih
      · cases op with
        | instrLogin code =>
            rw [authStep, instructor_do_login_player_id]
            exact hs
        | playerLogin code =>
            exact absurd (hall _ (List.mem_cons_self _ _))
              (by simp [AuthOp.isPlayerLoginOp])
        | logoutOp => rfl
      · intro o ho
        exact hall o (List.mem_cons_of_mem _ ho)

/-- A run containing no instructor logins keeps `instructor_id` unset. -/
theorem runAuth_instructor_id_none (db : DB) (ops : List AuthOp) :
    ∀ s : SessionData, s.instructor_id = none →
      (∀ op ∈ ops, op.isInstrLoginOp = false) →
      (runAuth db s ops).instructor_id = none := by
  induction ops with
  | nil => intro s hs _; exact hs
  | cons op ops ih =>
      intro s hs hall
      have hstep : runAuth db s (op :: ops) = runAuth db (authStep db s op) ops := rfl
      rw [hstep]
      apply ih
      · cases op with
        | instrLogin code =>
            exact absurd (hall _ (List.mem_cons_self _ _))
              (by simp [AuthOp.isInstrLoginOp])
        | playerLogin code =>
            rw [authStep, player_do_login_instructor_id]
            exact hs
        | logoutOp => rfl
      · intro o ho
        exact hall o (List.mem_cons_of_mem _ ho)

/-- C7 counterexample: a successful player login followed by a successful
instructor login — with no logout between — leaves BOTH `player_id` and
`instructor_id` set, because each login only writes its own key. -/
theorem session_both_roles_counterexample :
    (runAuth dbDemo {}
        [AuthOp.playerLogin "222222", AuthOp.instrLogin "999999"]).instructor_id
      = some 1 ∧
    (runAuth dbDemo {}
        [AuthOp.playerLogin "222222", AuthOp.instrLogin "999999"]).player_id
      = some 2 := by
  decide

/-- C7 amended: both identity keys can be simultaneously set (a player
login followed by an instructor login reaches such a state); the
at-most-one-of-the-two invariant does hold for every sequence of login
and logout operations whose login operations are all of a single role. -/
theorem session_single_role_invariant (db : DB) (ops : List AuthOp)
    (h : (∀ op ∈ ops, op.isPlayerLoginOp = false) ∨
         (∀ op ∈ ops, op.isInstrLoginOp = false)) :
    ¬((runAuth db {} ops).instructor_id.isSome
        ∧ (runAuth db {} ops).player_id.isSome) := by
  rcases h with h | h
  · rintro ⟨_, hp⟩
    rw [runAuth_player_id_none db ops {} rfl h] at hp
    simp at hp
  · rintro ⟨hi, _⟩
    rw [runAuth_instructor_id_none db ops {} rfl h] at hi
    simp at hi

/-- C7 witness: an instructor-only session history never ends up with both
keys set. -/
theorem session_single_role_invariant_witness :
    (∀ op ∈ [AuthOp.instrLogin "999999", AuthOp.logoutOp],
        op.isPlayerLoginOp = false) ∧
    ¬((runAuth dbDemo {}
          [AuthOp.instrLogin "999999", AuthOp.logoutOp]).instructor_id.isSome
        ∧ (runAuth dbDemo {}
            [AuthOp.instrLogin "999999", AuthOp.logoutOp]).player_id.isSome) :=
  ⟨by decide,
   session_single_role_invariant dbDemo
     [AuthOp.instrLogin "999999", AuthOp.logoutOp] (Or.inl (by decide))⟩
